import Mathlib

/-!
Verification development for the p3 C++→PHP class-wrapper header (phplang/p3).

The definitions below are a shallow embedding of the adapter framework in
src/unnamed/part_002 (the revision of p3.h that carries the comparison
dispatcher) together with the Simple example type from src/unnamed/part_001.

Modelling conventions:
* machine addresses are `Int` byte addresses; `sizeof` values are explicit
  `Int` parameters, so pointer arithmetic on `T*` is plain integer arithmetic;
* the Zend engine status codes SUCCESS / FAILURE are an enumeration;
* a capability that the SFINAE member-function traits detect on the wrapped
  type `T` is an `Option` field: `some f` when the exact name+signature is
  declared, `none` otherwise;
* zend_string / zend_array / zend_resource values and foreign zend_object
  headers are opaque handles, since the embedded code only passes them
  through to the wrapped type's methods.
-/

namespace p3

/-- Zend engine status codes: SUCCESS (0) and FAILURE (-1). -/
inductive Status where
  | success
  | failure
deriving DecidableEq

/-- Opaque model of a zend_string* value (only its contents matter here). -/
structure ZendString where
  val : String
deriving DecidableEq

/-- Opaque model of a zend_array* value. -/
structure ZendArray where
  id : Nat
deriving DecidableEq

/-- Identity (address) of a zend_object header. -/
structure ZendObjectRef where
  id : Nat
deriving DecidableEq

/-- Opaque model of a zend_resource* value. -/
structure ZendResource where
  id : Nat
deriving DecidableEq

/-- Opaque model of a C `double`.  No double arithmetic occurs anywhere in the
embedded code (doubles are only passed through to user methods); the only
double ever produced in this development is Simple::toDouble, which returns an
exact integer value, recorded in `val`. -/
structure CDouble where
  val : Int
deriving DecidableEq

/-- A PHP object operand as seen by the hooks of a wrapped type T: the header
identity plus, when the object's handler table is `&T::handlers`, the native T
payload reachable through `toObject<T>`.  `payload = none` models an object of
a foreign class (`handlers ≠ &T::handlers`). -/
structure ZObj (T : Type) where
  ref : ZendObjectRef
  payload : Option T
deriving DecidableEq

/-- A zval, discriminated exactly as `Z_TYPE_P` discriminates it
(IS_UNDEF, IS_NULL, IS_FALSE, IS_TRUE, IS_LONG, IS_DOUBLE, IS_STRING,
IS_ARRAY, IS_OBJECT, IS_RESOURCE). -/
inductive Zval (T : Type) where
  | undef
  | null
  | bfalse
  | btrue
  | long (v : Int)
  | double (d : CDouble)
  | str (s : ZendString)
  | arr (a : ZendArray)
  | obj (o : ZObj T)
  | res (r : ZendResource)
deriving DecidableEq

/-- Z_TYPE tag values of PHP 7.2 (zend_types.h). -/
def IS_UNDEF : Int := 0

def IS_NULL : Int := 1

def IS_FALSE : Int := 2

def IS_TRUE : Int := 3

def IS_LONG : Int := 4

def IS_DOUBLE : Int := 5

def IS_STRING : Int := 6

def IS_ARRAY : Int := 7

def IS_OBJECT : Int := 8

def IS_RESOURCE : Int := 9

/-- The engine's `_IS_BOOL` pseudo-tag (13): a legal cast target, but never the
Z_TYPE of a live zval (live booleans are IS_TRUE / IS_FALSE). -/
def IS_BOOL : Int := 13

/-- The check `Z_TYPE_P(z) == IS_OBJECT && Z_OBJ_P(z)->handlers == &T::handlers`
used by compareObject<T> to recognise a wrapped instance of T. -/
def isWrappedT {T : Type} : Zval T → Bool
  | .obj o => o.payload.isSome
  | _ => false

/-- `toZendObject<T>(T* obj) = reinterpret_cast<zend_object*>(obj + 1)`
(part_002 lines 90-93): pointer arithmetic on `T*`, so the header address is
the payload address plus sizeof(T). -/
def toZendObject (sizeofT : Int) (p : Int) : Int := p + sizeofT

/-- `toObject<T>(zend_object* obj) = reinterpret_cast<T*>(obj) - 1`
(part_002 lines 95-98): the payload address is the header address minus
sizeof(T). -/
def toObject (sizeofT : Int) (h : Int) : Int := h - sizeofT

/-- sizeof(zend_object) on the reference platform (PHP 7.2, LP64: gc 8 +
handle 4 + padding 4 + ce 8 + handlers 8 + properties 8 + properties_table
16 = 56 bytes).  Recorded only to compare against the offsets the code
actually uses. -/
def sizeofZendObject : Int := 56

/-- C++ types that occur in the member-function signatures queried by the
capability traits of part_002. -/
inductive CTy where
  | cVoid
  | cBool
  | zendBool
  | zendLong
  | cDouble
  | cInt
  | zendStringPtr
  | zendArrayPtr
  | zendObjectPtr
  | zendResourcePtr
  | constZvalPtr
  | constRefSelf
deriving DecidableEq

/-- A member-function signature: argument types, return type, and whether the
member is const-qualified (the trait macro instantiates one detector per
cv-qualification, so the qualifier is part of the queried signature). -/
structure FnSig where
  args : List CTy
  ret : CTy
  constQual : Bool
deriving DecidableEq

/-- A member function a native type declares. -/
structure MemberFn where
  name : String
  sig : FnSig
deriving DecidableEq

/-- The folly-derived member-function trait of part_002 lines 222-250
(`P3_CREATE_HAS_MEMBER_FN_TRAITS`): true iff the type declares a member
function with this exact name and this exact signature.  A member with the
right name but any different argument/return type or cv-qualification is not
matched. -/
def hasMemberFn (decls : List MemberFn) (nm : String) (s : FnSig) : Bool :=
  decls.any (fun m => m.name == nm && m.sig == s)

/-- The compile-time capability surface of a wrapped native type T, as the
hasToX / hasCompare traits of part_002 compute it: each field is `some f`
exactly when T declares the member function with the exact name and signature
queried by the corresponding trait (shown in the comment), and `none`
otherwise. -/
structure NativeClass (T : Type) where
  toBool : Option (T → Bool) := none               -- zend_bool toBool() const
  toLong : Option (T → Int) := none                -- zend_long toLong() const
  toDouble : Option (T → CDouble) := none          -- double toDouble() const
  toString : Option (T → ZendString) := none       -- zend_string* toString() const
  toArray : Option (T → ZendArray) := none         -- zend_array* toArray() const
  compareNull : Option (T → Int) := none           -- int compare() const
  compareBool : Option (T → Bool → Int) := none    -- int compare(zend_bool) const
  compareLong : Option (T → Int → Int) := none     -- int compare(zend_long) const
  compareDouble : Option (T → CDouble → Int) := none   -- int compare(double) const
  compareString : Option (T → ZendString → Int) := none  -- int compare(const zend_string*) const
  compareArray : Option (T → ZendArray → Int) := none    -- int compare(const zend_array*) const
  compareSimilar : Option (T → T → Int) := none          -- int compare(const T&) const
  compareObjectPtr : Option (T → ZendObjectRef → Int) := none  -- int compare(const zend_object*) const
  compareResource : Option (T → ZendResource → Int) := none    -- int compare(const zend_resource*) const
  compareZval : Option (T → Zval T → Int) := none        -- int compare(const zval*) const

/-- `castObject<T>(zval* src, zval* dest, int type)` (part_002 lines 365-380).
`src` is the zval holding the wrapped object and `x` its payload
(`x = *toObject<T>(src)`).  Result: the returned status, and the zval written
into `dest` (`none` when the function returns FAILURE without writing dest).
Each `castObjectToX<T>` helper (lines 252-264) returns SUCCESS with the
method's return value wrapped into the matching primitive when the capability
is detected, and FAILURE otherwise. -/
def castObject {T : Type} (C : NativeClass T) (src : Zval T) (x : T) (ty : Int) :
    Status × Option (Zval T) :=
  if ty = IS_UNDEF then (Status.success, some Zval.undef)
  else if ty = IS_NULL then (Status.success, some Zval.null)
  else if ty = IS_BOOL then
    match C.toBool with
    | some f => (Status.success, some (if f x then Zval.btrue else Zval.bfalse))
    | none => (Status.failure, none)
  else if ty = IS_LONG then
    match C.toLong with
    | some f => (Status.success, some (Zval.long (f x)))
    | none => (Status.failure, none)
  else if ty = IS_DOUBLE then
    match C.toDouble with
    | some f => (Status.success, some (Zval.double (f x)))
    | none => (Status.failure, none)
  else if ty = IS_STRING then
    match C.toString with
    | some f => (Status.success, some (Zval.str (f x)))
    | none => (Status.failure, none)
  else if ty = IS_ARRAY then
    match C.toArray with
    | some f => (Status.success, some (Zval.arr (f x)))
    | none => (Status.failure, none)
  else if ty = IS_OBJECT then (Status.success, some src)
  else (Status.failure, none)

/-- The `switch (Z_TYPE_P(b))` of compareObject<T> (part_002 lines 407-417):
`some v` models SUCCESS with `ZVAL_LONG(rv, v)`, `none` models ret = FAILURE
(either no case matched or the matching compareObjectToX wrapper lacked the
capability).  The case labels generated by `P3_COMPARABLE_TYPES` are the
NamedType enum values, so the boolean label is `_IS_BOOL` (13) — which the
Z_TYPE of a live zval (IS_TRUE = 3 / IS_FALSE = 2) never equals; boolean
operands therefore match no case and fall through with ret = FAILURE. -/
def compareKindDispatch {T : Type} (C : NativeClass T) (x : T) (b : Zval T) :
    Option Int :=
  match b with
  | .undef => C.compareNull.map (fun f => f x)
  | .null => C.compareNull.map (fun f => f x)
  | .btrue => none
  | .bfalse => none
  | .long n => C.compareLong.map (fun f => f x n)
  | .double d => C.compareDouble.map (fun f => f x d)
  | .str s => C.compareString.map (fun f => f x s)
  | .arr a => C.compareArray.map (fun f => f x a)
  | .obj o => C.compareObjectPtr.map (fun f => f x o.ref)
  | .res r => C.compareResource.map (fun f => f x r)

/-- Lines 406-425 of part_002: the kind switch, then the generic
`compareObjectToZval` fallback when ret is still FAILURE, and finally the
neutral write `ZVAL_LONG(rv, 0)` when even the fallback failed (the engine
would crash on an uninitialised rv, even in FAILURE mode). -/
def compareTail {T : Type} (C : NativeClass T) (x : T) (b : Zval T) :
    Status × Zval T :=
  match compareKindDispatch C x b with
  | some v => (Status.success, Zval.long v)
  | none =>
    match C.compareZval with
    | some g => (Status.success, Zval.long (g x b))
    | none => (Status.failure, Zval.long 0)

/-- The body of compareObject<T> once `a` is known to be the wrapped operand
(part_002 lines 398-425, `obj = toObject<T>(a)` = `x`): the special case first
tries `compareObjectToSimilar<T>` when b is an object with the same handler
table, and returns SUCCESS immediately when that capability exists; otherwise
it proceeds with the kind switch and fallbacks. -/
def compareWrapped {T : Type} (C : NativeClass T) (x : T) (b : Zval T) :
    Status × Zval T :=
  match b with
  | .obj { ref := r, payload := some y } =>
    match C.compareSimilar with
    | some f => (Status.success, Zval.long (f x y))
    | none => compareTail C x (Zval.obj { ref := r, payload := some y })
  | _ => compareTail C x b

/-- The post-processing of the normalization branch of compareObject<T>
(part_002 lines 391-395): after the swapped recursive call, negate rv when the
call returned SUCCESS and rv holds a long. -/
def negateOnSuccess {T : Type} : Status × Zval T → Status × Zval T
  | (Status.success, Zval.long v) => (Status.success, Zval.long (-v))
  | r => r

/-- `compareObject<T>(zval* rv, zval* a, zval* b)` (part_002 lines 385-426).
Returns (status, rv).  If `a` is not a wrapped T (wrong type or wrong handler
table), the code asserts that `b` is one, recurses with the operands swapped
and negates a successful long result.  The final arm models the
ZEND_ASSERT-guarded situation in which neither operand is a wrapped T, which
the hook contract makes unreachable. -/
def compareObject {T : Type} (C : NativeClass T) (a b : Zval T) :
    Status × Zval T :=
  match a with
  | .obj { ref := _, payload := some x } => compareWrapped C x b
  | _ =>
    match b with
    | .obj { ref := _, payload := some y } => negateOnSuccess (compareWrapped C y a)
    | _ => (Status.failure, Zval.long 0)

/-- No comparison overload of any kind is detected on T. -/
def noCompareOverloads {T : Type} (C : NativeClass T) : Prop :=
  C.compareNull = none ∧ C.compareBool = none ∧ C.compareLong = none ∧
  C.compareDouble = none ∧ C.compareString = none ∧ C.compareArray = none ∧
  C.compareSimilar = none ∧ C.compareObjectPtr = none ∧
  C.compareResource = none ∧ C.compareZval = none

/-- The steps taken while destroying a wrapped instance. -/
inductive DtorEvent where
  | stdDtor       -- zend_object_std_dtor(obj)
  | payloadDtor   -- toObject<T>(obj)->~T()
  | releaseBlock  -- the engine frees the combined block after free_obj returns
deriving DecidableEq

/-- `dtorObject<T>(zend_object* obj)` (part_002 lines 359-363), as the ordered
sequence of teardown steps the hook performs: it calls zend_object_std_dtor
first and runs the payload destructor second. -/
def dtorObject : List DtorEvent := [DtorEvent.stdDtor, DtorEvent.payloadDtor]

/-- The full destroy path: the host runtime invokes the free_obj hook
(dtorObject<T>) and then releases the combined block itself (a host-runtime
step outside this repository; the hook frees nothing). -/
def destroySequence : List DtorEvent := dtorObject ++ [DtorEvent.releaseBlock]

/-- The runtime class metadata a header is initialised with;
`propertiesSize` models `zend_object_properties_size(ce)`. -/
structure ClassEntry where
  name : String
  propertiesSize : Int
deriving DecidableEq

/-- `zend_objects_new(ce)`: a standard header-only object of class ce, with no
native payload — valid for the engine's object bookkeeping. -/
structure StdObject where
  ce : ClassEntry
deriving DecidableEq

/-- What `createThrownObject<T>` does: the formatted message handed to
`zend_throw_exception_ex`, and the header-only object it returns. -/
structure ThrownCreate where
  message : String
  placeholder : StdObject
deriving DecidableEq

/-- `createThrownObject<T>(zend_class_entry* ce)` (part_002 lines 446-451):
throws "%s may not be directly instantiated" formatted with the registered
class name, and returns `zend_objects_new(ce)`. -/
def createThrownObject (ce : ClassEntry) : ThrownCreate :=
  { message := ce.name ++ " may not be directly instantiated"
  , placeholder := { ce := ce } }

/-- Which create hook initClassEntry installs into `pce->create_object`. -/
inductive CreateHookKind where
  | ordinary   -- createObject<T>
  | thrown     -- createThrownObject<T>
deriving DecidableEq

/-- The per-type zend_object_handlers slots initClassEntry assigns. -/
structure HandlerTable where
  offset : Int
  freeObjInstalled : Bool
  cloneInstalled : Bool
  castInstalled : Bool
  compareInstalled : Bool
deriving DecidableEq

/-- Result of registration: the chosen create hook and the handler table. -/
structure RegisteredClass where
  createHook : CreateHookKind
  handlers : HandlerTable
deriving DecidableEq

/-- `initClassEntry<T>(name, methods)` (part_002 lines 453-474), as the
configuration it installs.  `sizeofT` is sizeof(T), `dc` is
std::is_constructible<T>::value and `cc` is
std::is_constructible<T, const T&>::value.  The code sets
`T::handlers.offset = sizeof(T)`, installs dtorObject/castObject/compareObject
unconditionally, installs cloneObject only for copy-constructible T
(nullptr otherwise), and picks createObject or createThrownObject by `dc`. -/
def initClassEntry (sizeofT : Int) (dc cc : Bool) : RegisteredClass :=
  { createHook := if dc then CreateHookKind.ordinary else CreateHookKind.thrown
  , handlers :=
    { offset := sizeofT
    , freeObjInstalled := true
    , cloneInstalled := cc
    , castInstalled := true
    , compareInstalled := true } }

/-- A combined payload+header block produced by allocObject<T>:
`base` is the address of the T payload (= start of the ecalloc'd block),
`size` the number of bytes allocated, `ce` the class the header was
initialised with (zend_object_std_init), and `handlersId` the identity of the
handler table stored into `zobj->handlers` (`&T::handlers`). -/
structure AllocatedObject (T : Type) where
  base : Int
  size : Int
  payload : T
  ce : ClassEntry
  handlersId : Nat
deriving DecidableEq

/-- `allocObject<T>(zend_class_entry* ce, InitFunc init)` (part_002 lines
330-341): ecalloc's `sizeof(T) + sizeof(zend_object) +
zend_object_properties_size(ce)` bytes at `base`, constructs the payload in
place (`initVal` is the constructed value), initialises the header for `ce`,
installs `&T::handlers`, and returns the header address
`toZendObject(ptr)`. -/
def allocObject {T : Type} (sizeofT : Int) (handlersId : Nat) (ce : ClassEntry)
    (initVal : T) (base : Int) : AllocatedObject T × Int :=
  ({ base := base
   , size := sizeofT + sizeofZendObject + ce.propertiesSize
   , payload := initVal
   , ce := ce
   , handlersId := handlersId }
  , toZendObject sizeofT base)

/-- `cloneObject<T>(zval* oldzval)` (part_002 lines 349-357): reads the source
payload through toObject<T>, and calls allocObject with `Z_OBJCE_P(oldzval)` —
the concrete runtime class of the source block (`old.ce`), not T's statically
registered class — and an init function that copy-constructs from the source
(`copy` is T's copy constructor). -/
def cloneObject {T : Type} (sizeofT : Int) (handlersId : Nat) (copy : T → T)
    (old : AllocatedObject T) (freshBase : Int) : AllocatedObject T × Int :=
  allocObject sizeofT handlersId old.ce (copy old.payload) freshBase

/-- The Simple example type (part_001 lines 10-35): a single zend_long counter
starting at 0. -/
structure Simple where
  counter : Int
deriving DecidableEq

/-- Simple's default constructor: `zend_long counter{0}`. -/
def Simple.new : Simple := { counter := 0 }

/-- `takeANumber`: `RETURN_LONG(++counter)` — returns the updated object and
the long returned to PHP. -/
def Simple.takeANumber (s : Simple) : Simple × Int :=
  ({ counter := s.counter + 1 }, s.counter + 1)

/-- `bool toBool() const { return counter; }`. -/
def Simple.toBool (s : Simple) : Bool := s.counter ≠ 0

/-- `zend_long toLong() const { return counter; }`. -/
def Simple.toLong (s : Simple) : Int := s.counter

/-- `double toDouble() const { return counter; }` (an exact integer value). -/
def Simple.toDouble (s : Simple) : CDouble := { val := s.counter }

/-- `zend_string* toString() const`: the decimal rendering of the counter. -/
def Simple.toString (s : Simple) : ZendString := { val := s.counter.repr }

/-- `int compare(zend_long that) const` (part_001 lines 28-30). -/
def Simple.compareLong (s : Simple) (that : Int) : Int :=
  if s.counter = that then 0 else if s.counter < that then -1 else 1

/-- `int compare(const Simple& that) const { return compare(that.counter); }`
(part_001 line 31). -/
def Simple.compareSimilar (s : Simple) (that : Simple) : Int :=
  Simple.compareLong s that.counter

/-- Simple's capabilities under the traits of part_002.  hasToBool queries
`zend_bool() const` and zend_bool is `unsigned char` in PHP 7, while Simple
declares `bool toBool() const`, so toBool is not detected (detection is
signature-exact); toLong/toDouble/toString match their queried signatures
exactly; Simple declares no toArray and only the zend_long and const Simple&
comparison overloads. -/
def Simple.nativeClass : NativeClass Simple :=
  { toBool := none
  , toLong := some Simple.toLong
  , toDouble := some Simple.toDouble
  , toString := some Simple.toString
  , toArray := none
  , compareLong := some Simple.compareLong
  , compareSimilar := some Simple.compareSimilar }

/-- A fully-capable test class over Unit, used to exercise the
capability-present branches of the dispatchers at concrete inputs. -/
def demoClass : NativeClass Unit :=
  { toBool := some (fun _ => true)
  , toLong := some (fun _ => 7)
  , toDouble := some (fun _ => { val := 3 })
  , toString := some (fun _ => { val := "d" })
  , toArray := some (fun _ => { id := 1 })
  , compareNull := some (fun _ => 5)
  , compareBool := some (fun _ _ => 1)
  , compareLong := some (fun _ n => n)
  , compareDouble := some (fun _ _ => 2)
  , compareString := some (fun _ _ => 3)
  , compareArray := some (fun _ _ => 4)
  , compareSimilar := some (fun _ _ => 6)
  , compareObjectPtr := some (fun _ _ => 8)
  , compareResource := some (fun _ _ => 9)
  , compareZval := some (fun _ _ => 10) }

/-- A class over Unit with every capability absent. -/
def allNoneClass : NativeClass Unit := {}

/-- A class over Unit whose only capability is a deliberately
non-antisymmetric same-type comparator: compare(const T&) constantly 1. -/
def constOneClass : NativeClass Unit :=
  { compareSimilar := some (fun _ _ => 1) }

/-- A wrapped Unit instance with header id 0. -/
def zu0 : Zval Unit := Zval.obj { ref := { id := 0 }, payload := some () }

/-- A wrapped Unit instance with header id 1. -/
def zu1 : Zval Unit := Zval.obj { ref := { id := 1 }, payload := some () }

/-- The Simple instance x of the spec scenario: bumped twice, counter 2. -/
def simpleX : Simple := (Simple.takeANumber (Simple.takeANumber Simple.new).1).1

/-- The Simple instance y of the spec scenario: bumped once, counter 1. -/
def simpleY : Simple := (Simple.takeANumber Simple.new).1

theorem castObject_at_undef {T : Type} (C : NativeClass T) (src : Zval T) (x : T) :
    castObject C src x IS_UNDEF = (Status.success, some Zval.undef) := rfl

theorem castObject_at_null {T : Type} (C : NativeClass T) (src : Zval T) (x : T) :
    castObject C src x IS_NULL = (Status.success, some Zval.null) := rfl

theorem castObject_at_bool {T : Type} (C : NativeClass T) (src : Zval T) (x : T) :
    castObject C src x IS_BOOL =
      (match C.toBool with
       | some f => (Status.success, some (if f x then Zval.btrue else Zval.bfalse))
       | none => (Status.failure, none)) := rfl

theorem castObject_at_long {T : Type} (C : NativeClass T) (src : Zval T) (x : T) :
    castObject C src x IS_LONG =
      (match C.toLong with
       | some f => (Status.success, some (Zval.long (f x)))
       | none => (Status.failure, none)) := rfl

theorem castObject_at_double {T : Type} (C : NativeClass T) (src : Zval T) (x : T) :
    castObject C src x IS_DOUBLE =
      (match C.toDouble with
       | some f => (Status.success, some (Zval.double (f x)))
       | none => (Status.failure, none)) := rfl

theorem castObject_at_string {T : Type} (C : NativeClass T) (src : Zval T) (x : T) :
    castObject C src x IS_STRING =
      (match C.toString with
       | some f => (Status.success, some (Zval.str (f x)))
       | none => (Status.failure, none)) := rfl

theorem castObject_at_array {T : Type} (C : NativeClass T) (src : Zval T) (x : T) :
    castObject C src x IS_ARRAY =
      (match C.toArray with
       | some f => (Status.success, some (Zval.arr (f x)))
       | none => (Status.failure, none)) := rfl

theorem castObject_at_object {T : Type} (C : NativeClass T) (src : Zval T) (x : T) :
    castObject C src x IS_OBJECT = (Status.success, some src) := rfl

theorem castObject_at_resource {T : Type} (C : NativeClass T) (src : Zval T) (x : T) :
    castObject C src x IS_RESOURCE = (Status.failure, none) := rfl

/-- C10: as implemented, toObject<T> and toZendObject<T> are mutual inverses
at the offset sizeof(T): for every payload address p,
toObject(toZendObject p) = p, and for every header address h,
toZendObject(toObject h) = h — the round trip is the identity in both
directions. -/
theorem c10_translation_roundtrip (sizeofT p h : Int) :
    toObject sizeofT (toZendObject sizeofT p) = p ∧
    toZendObject sizeofT (toObject sizeofT h) = h := by
  unfold toObject toZendObject
  omega

/-- C1 as stated is false on the code: for the wrapped type Simple
(sizeof(Simple) = 8, one zend_long field), the offset recorded into the
handler table at registration is sizeof(T) = 8, not
sizeof(zend_object) = 56, and the payload address computed by toObject from
the header at 108 is 100 = header − 8, not header − 56. -/
theorem c1_counterexample :
    ¬ ((initClassEntry 8 true true).handlers.offset = sizeofZendObject ∧
       toObject 8 (toZendObject 8 100) = toZendObject 8 100 - sizeofZendObject) := by
  decide

/-- C1 amended: for every wrapped native type T, toZendObject and toObject
are inverse constant-offset maps whose offset is the size of the native
payload, sizeof(T): the header address is the payload address plus sizeof(T),
the payload address is always the header address minus sizeof(T), and the
offset recorded in the handler table at registration equals that same
constant sizeof(T). -/
theorem c1_amended_offset (sizeofT p h : Int) (dc cc : Bool) :
    toZendObject sizeofT p = p + sizeofT ∧
    toObject sizeofT h = h - sizeofT ∧
    toObject sizeofT (toZendObject sizeofT p) = p ∧
    toZendObject sizeofT (toObject sizeofT h) = h ∧
    (initClassEntry sizeofT dc cc).handlers.offset = sizeofT := by
  refine ⟨rfl, rfl, ?_, ?_, rfl⟩ <;>
  · unfold toObject toZendObject
    omega

/-- C2 as stated is false on the code: the destroy path does not run T's
destructor first — dtorObject calls zend_object_std_dtor before the payload
destructor, so the sequence is not
[payload destructor, per-header teardown, release]. -/
theorem c2_counterexample :
    ¬ (destroySequence =
        [DtorEvent.payloadDtor, DtorEvent.stdDtor, DtorEvent.releaseBlock]) := by
  decide

/-- C2 amended: for every wrapped native type T, the destroy path performs its
three steps in this order: first the runtime's own per-header teardown
(zend_object_std_dtor), then T's destructor on the native payload, and then
the release of the combined block (done by the host runtime after the hook
returns). -/
theorem c2_amended_order :
    destroySequence =
      [DtorEvent.stdDtor, DtorEvent.payloadDtor, DtorEvent.releaseBlock] := rfl

/-- C3: the castObject dispatch table.  Casting to the null kind and to the
object-identity kind always succeeds (object-identity writes src itself,
unmodified, into dest); casting to the opaque-resource kind always fails;
each of the boolean / integer / floating-point / string / array kinds
succeeds if and only if the matching named conversion method is detected
(signature-exactly) on T, in which case dest holds exactly that method's
return value wrapped as the target primitive, and otherwise the status is
FAILURE; and detection is signature-exact: hasMemberFn does not find a member
that has the queried name but a different signature (here: a toLong declared
as `int toLong() const` is not found when `zend_long toLong() const` is
queried). -/
theorem c3_cast_dispatch {T : Type} (C : NativeClass T) (src : Zval T) (x : T) :
    castObject C src x IS_NULL = (Status.success, some Zval.null) ∧
    castObject C src x IS_OBJECT = (Status.success, some src) ∧
    castObject C src x IS_RESOURCE = (Status.failure, none) ∧
    ((castObject C src x IS_BOOL).1 = Status.success ↔ C.toBool.isSome = true) ∧
    ((castObject C src x IS_LONG).1 = Status.success ↔ C.toLong.isSome = true) ∧
    ((castObject C src x IS_DOUBLE).1 = Status.success ↔ C.toDouble.isSome = true) ∧
    ((castObject C src x IS_STRING).1 = Status.success ↔ C.toString.isSome = true) ∧
    ((castObject C src x IS_ARRAY).1 = Status.success ↔ C.toArray.isSome = true) ∧
    (∀ f, C.toBool = some f →
      castObject C src x IS_BOOL =
        (Status.success, some (if f x then Zval.btrue else Zval.bfalse))) ∧
    (∀ f, C.toLong = some f →
      castObject C src x IS_LONG = (Status.success, some (Zval.long (f x)))) ∧
    (∀ f, C.toDouble = some f →
      castObject C src x IS_DOUBLE = (Status.success, some (Zval.double (f x)))) ∧
    (∀ f, C.toString = some f →
      castObject C src x IS_STRING = (Status.success, some (Zval.str (f x)))) ∧
    (∀ f, C.toArray = some f →
      castObject C src x IS_ARRAY = (Status.success, some (Zval.arr (f x)))) ∧
    (C.toBool = none → castObject C src x IS_BOOL = (Status.failure, none)) ∧
    (C.toLong = none → castObject C src x IS_LONG = (Status.failure, none)) ∧
    (C.toDouble = none → castObject C src x IS_DOUBLE = (Status.failure, none)) ∧
    (C.toString = none → castObject C src x IS_STRING = (Status.failure, none)) ∧
    (C.toArray = none → castObject C src x IS_ARRAY = (Status.failure, none)) ∧
    hasMemberFn
      [{ name := "toLong"
       , sig := { args := [], ret := CTy.cInt, constQual := true } }]
      "toLong" { args := [], ret := CTy.zendLong, constQual := true } = false := by
  refine ⟨castObject_at_null C src x, castObject_at_object C src x,
    castObject_at_resource C src x, ?_, ?_, ?_, ?_, ?_, ?_, ?_, ?_, ?_, ?_,
    ?_, ?_, ?_, ?_, ?_, by decide⟩
  · rw [castObject_at_bool]
    cases C.toBool <;> simp
  · rw [castObject_at_long]
    cases C.toLong <;> simp
  · rw [castObject_at_double]
    cases C.toDouble <;> simp
  · rw [castObject_at_string]
    cases C.toString <;> simp
  · rw [castObject_at_array]
    cases C.toArray <;> simp
  · intro f hf
    rw [castObject_at_bool, hf]
  · intro f hf
    rw [castObject_at_long, hf]
  · intro f hf
    rw [castObject_at_double, hf]
  · intro f hf
    rw [castObject_at_string, hf]
  · intro f hf
    rw [castObject_at_array, hf]
  · intro hf
    rw [castObject_at_bool, hf]
  · intro hf
    rw [castObject_at_long, hf]
  · intro hf
    rw [castObject_at_double, hf]
  · intro hf
    rw [castObject_at_string, hf]
  · intro hf
    rw [castObject_at_array, hf]

/-- Witness for C3: the capability-present branches at the fully-capable demo
class (integer cast yields toLong's value 7 with SUCCESS), and a
capability-absent branch at Simple (whose toBool has a mismatched signature
and is therefore not detected: the boolean cast fails). -/
theorem c3_cast_dispatch_witness :
    castObject demoClass zu0 () IS_LONG = (Status.success, some (Zval.long 7)) ∧
    castObject Simple.nativeClass
      (Zval.obj { ref := { id := 0 }, payload := some Simple.new }) Simple.new
      IS_BOOL = (Status.failure, none) := by
  have h1 := c3_cast_dispatch demoClass zu0 ()
  have h2 := c3_cast_dispatch Simple.nativeClass
    (Zval.obj { ref := { id := 0 }, payload := some Simple.new }) Simple.new
  obtain ⟨-, -, -, -, -, -, -, -, -, hlong, -, -, -, -, -, -, -, -, -⟩ := h1
  obtain ⟨-, -, -, -, -, -, -, -, -, -, -, -, -, hbool, -, -, -, -, -⟩ := h2
  exact ⟨hlong (fun _ => 7) rfl, hbool rfl⟩

/-- C4: when the comparison hook is invoked with both operands wrapped
instances of T (same handler table) and T declares compare(const T&), the
result is exactly that overload's value with SUCCESS.  The theorem holds for
every capability record C with compareSimilar detected, whatever its other
fields are — so the kind-specific overloads and the generic zval fallback are
not consulted in that case. -/
theorem c4_similar_authoritative {T : Type} (C : NativeClass T)
    (f : T → T → Int) (hf : C.compareSimilar = some f)
    (ra rb : ZendObjectRef) (x y : T) :
    compareObject C (Zval.obj { ref := ra, payload := some x })
      (Zval.obj { ref := rb, payload := some y })
      = (Status.success, Zval.long (f x y)) := by
  have hstep : compareObject C (Zval.obj { ref := ra, payload := some x })
      (Zval.obj { ref := rb, payload := some y })
      = (match C.compareSimilar with
         | some g => (Status.success, Zval.long (g x y))
         | none => compareTail C x (Zval.obj { ref := rb, payload := some y })) := rfl
  rw [hstep, hf]

/-- Witness for C4: two Simple instances with counters 2 and 1; the hook
returns exactly Simple::compare(const Simple&) applied to them, with
SUCCESS. -/
theorem c4_similar_authoritative_witness :
    compareObject Simple.nativeClass
      (Zval.obj { ref := { id := 0 }, payload := some { counter := 2 } })
      (Zval.obj { ref := { id := 1 }, payload := some { counter := 1 } })
      = (Status.success,
         Zval.long (Simple.compareSimilar { counter := 2 } { counter := 1 })) :=
  c4_similar_authoritative Simple.nativeClass Simple.compareSimilar rfl
    { id := 0 } { id := 1 } { counter := 2 } { counter := 1 }

/-- C5 as stated is false on the code: with a type whose compare(const T&)
constantly returns 1, both orientations of a comparison of two wrapped
instances succeed with result 1, so compare(a,b) ≠ -compare(b,a) even though
both comparisons are successful — the both-wrapped case takes the same-type
overload verbatim and never negates. -/
theorem c5_counterexample :
    (compareObject constOneClass zu0 zu1).1 = Status.success ∧
    (compareObject constOneClass zu1 zu0).1 = Status.success ∧
    compareObject constOneClass zu0 zu1 ≠
      negateOnSuccess (compareObject constOneClass zu1 zu0) := by
  decide

/-- C5 amended: when only b is the wrapped-T operand, the comparison hook
recurses with the operands swapped and negates a successful long result
(model: compareObject C a b = negateOnSuccess of the wrapped-side result of
(b, a)), so compare(a,b) == -compare(b,a) holds for every successful
comparison in which exactly one operand is the wrapped instance; when both
operands are wrapped the result is the type's own same-type comparator, so
the symmetry invariant there needs that comparator to be antisymmetric — as
Simple's integer comparator is: comparing any Simple instance with itself
yields SUCCESS with result zero. -/
theorem c5_swap_negation {T : Type} (C : NativeClass T) (a : Zval T)
    (ha : isWrappedT a = false) (rb : ZendObjectRef) (y : T) :
    (compareObject C a (Zval.obj { ref := rb, payload := some y })
      = negateOnSuccess
          (compareObject C (Zval.obj { ref := rb, payload := some y }) a)) ∧
    (∀ s : Simple, ∀ r1 r2 : ZendObjectRef,
      compareObject Simple.nativeClass
        (Zval.obj { ref := r1, payload := some s })
        (Zval.obj { ref := r2, payload := some s })
        = (Status.success, Zval.long 0)) := by
  constructor
  · cases a with
    | obj o =>
      obtain ⟨r, p⟩ := o
      cases p with
      | some xa => simp [isWrappedT] at ha
      | none => rfl
    | undef => rfl
    | null => rfl
    | bfalse => rfl
    | btrue => rfl
    | long v => rfl
    | double d => rfl
    | str s => rfl
    | arr ar => rfl
    | res r => rfl
  · intro s r1 r2
    show (Status.success, Zval.long (Simple.compareSimilar s s))
      = (Status.success, Zval.long 0)
    simp [Simple.compareSimilar, Simple.compareLong]

/-- Witness for C5 (amended): a long operand on the left and a wrapped
instance on the right — the result is the negation of the wrapped-side
result, and the Simple self-comparison is zero. -/
theorem c5_swap_negation_witness :
    isWrappedT (Zval.long 5 : Zval Unit) = false ∧
    compareObject demoClass (Zval.long 5) zu0
      = negateOnSuccess (compareObject demoClass zu0 (Zval.long 5)) ∧
    compareObject Simple.nativeClass
      (Zval.obj { ref := { id := 3 }, payload := some simpleX })
      (Zval.obj { ref := { id := 4 }, payload := some simpleX })
      = (Status.success, Zval.long 0) := by
  have h := c5_swap_negation demoClass (Zval.long 5) rfl { id := 0 } ()
  exact ⟨rfl, h.1, h.2 simpleX { id := 3 } { id := 4 }⟩

theorem compareTail_none {T : Type} (C : NativeClass T) (x : T) (b : Zval T)
    (hno : noCompareOverloads C) :
    compareTail C x b = (Status.failure, Zval.long 0) := by
  obtain ⟨h1, h2, h3, h4, h5, h6, h7, h8, h9, h10⟩ := hno
  cases b <;>
  simp [compareTail, compareKindDispatch, h1, h2, h3, h4, h5, h6, h8, h9, h10]

theorem compareWrapped_none {T : Type} (C : NativeClass T) (x : T) (b : Zval T)
    (hno : noCompareOverloads C) :
    compareWrapped C x b = (Status.failure, Zval.long 0) := by
  cases b with
  | obj o =>
    obtain ⟨r, p⟩ := o
    cases p with
    | some y =>
      show (match C.compareSimilar with
            | some f => (Status.success, Zval.long (f x y))
            | none => compareTail C x (Zval.obj { ref := r, payload := some y }))
        = (Status.failure, Zval.long 0)
      rw [hno.2.2.2.2.2.2.1]
      exact compareTail_none C x _ hno
    | none =>
      show compareTail C x (Zval.obj { ref := r, payload := none })
        = (Status.failure, Zval.long 0)
      exact compareTail_none C x _ hno
  | undef =>
    show compareTail C x Zval.undef = (Status.failure, Zval.long 0)
    exact compareTail_none C x _ hno
  | null =>
    show compareTail C x Zval.null = (Status.failure, Zval.long 0)
    exact compareTail_none C x _ hno
  | bfalse =>
    show compareTail C x Zval.bfalse = (Status.failure, Zval.long 0)
    exact compareTail_none C x _ hno
  | btrue =>
    show compareTail C x Zval.btrue = (Status.failure, Zval.long 0)
    exact compareTail_none C x _ hno
  | long v =>
    show compareTail C x (Zval.long v) = (Status.failure, Zval.long 0)
    exact compareTail_none C x _ hno
  | double d =>
    show compareTail C x (Zval.double d) = (Status.failure, Zval.long 0)
    exact compareTail_none C x _ hno
  | str s =>
    show compareTail C x (Zval.str s) = (Status.failure, Zval.long 0)
    exact compareTail_none C x _ hno
  | arr ar =>
    show compareTail C x (Zval.arr ar) = (Status.failure, Zval.long 0)
    exact compareTail_none C x _ hno
  | res r =>
    show compareTail C x (Zval.res r) = (Status.failure, Zval.long 0)
    exact compareTail_none C x _ hno

/-- C6: when no comparison overload of any kind is detected on T (no
kind-specific overload, no zero-argument overload for null/undefined, no
generic zval overload), the hook reports FAILURE and still writes the defined
neutral result — the long 0, meaning equal — into the output slot.  It raises
no exception: compareObject is a total function into (status, rv) with no
error channel, mirroring the code, which contains no throw. -/
theorem c6_failure_neutral {T : Type} (C : NativeClass T) (a b : Zval T)
    (hw : isWrappedT a = true ∨ isWrappedT b = true)
    (hno : noCompareOverloads C) :
    compareObject C a b = (Status.failure, Zval.long 0) := by
  cases a with
  | obj o =>
    obtain ⟨ra, pa⟩ := o
    cases pa with
    | some x => exact compareWrapped_none C x b hno
    | none =>
      cases b with
      | obj ob =>
        obtain ⟨rb, pb⟩ := ob
        cases pb with
        | some y =>
          show negateOnSuccess
              (compareWrapped C y (Zval.obj { ref := ra, payload := none }))
            = (Status.failure, Zval.long 0)
          rw [compareWrapped_none C y _ hno]
          rfl
        | none => rfl
      | undef => rfl
      | null => rfl
      | bfalse => rfl
      | btrue => rfl
      | long v => rfl
      | double d => rfl
      | str s => rfl
      | arr ar => rfl
      | res r => rfl
  | undef =>
    cases b with
    | obj ob =>
      obtain ⟨rb, pb⟩ := ob
      cases pb with
      | some y =>
        show negateOnSuccess (compareWrapped C y Zval.undef)
          = (Status.failure, Zval.long 0)
        rw [compareWrapped_none C y _ hno]
        rfl
      | none => rfl
    | undef => rfl
    | null => rfl
    | bfalse => rfl
    | btrue => rfl
    | long v => rfl
    | double d => rfl
    | str s => rfl
    | arr ar => rfl
    | res r => rfl
  | null =>
    cases b with
    | obj ob =>
      obtain ⟨rb, pb⟩ := ob
      cases pb with
      | some y =>
        show negateOnSuccess (compareWrapped C y Zval.null)
          = (Status.failure, Zval.long 0)
        rw [compareWrapped_none C y _ hno]
        rfl
      | none => rfl
    | undef => rfl
    | null => rfl
    | bfalse => rfl
    | btrue => rfl
    | long v => rfl
    | double d => rfl
    | str s => rfl
    | arr ar => rfl
    | res r => rfl
  | bfalse =>
    cases b with
    | obj ob =>
      obtain ⟨rb, pb⟩ := ob
      cases pb with
      | some y =>
        show negateOnSuccess (compareWrapped C y Zval.bfalse)
          = (Status.failure, Zval.long 0)
        rw [compareWrapped_none C y _ hno]
        rfl
      | none => rfl
    | undef => rfl
    | null => rfl
    | bfalse => rfl
    | btrue => rfl
    | long v => rfl
    | double d => rfl
    | str s => rfl
    | arr ar => rfl
    | res r => rfl
  | btrue =>
    cases b with
    | obj ob =>
      obtain ⟨rb, pb⟩ := ob
      cases pb with
      | some y =>
        show negateOnSuccess (compareWrapped C y Zval.btrue)
          = (Status.failure, Zval.long 0)
        rw [compareWrapped_none C y _ hno]
        rfl
      | none => rfl
    | undef => rfl
    | null => rfl
    | bfalse => rfl
    | btrue => rfl
    | long v => rfl
    | double d => rfl
    | str s => rfl
    | arr ar => rfl
    | res r => rfl
  | long v =>
    cases b with
    | obj ob =>
      obtain ⟨rb, pb⟩ := ob
      cases pb with
      | some y =>
        show negateOnSuccess (compareWrapped C y (Zval.long v))
          = (Status.failure, Zval.long 0)
        rw [compareWrapped_none C y _ hno]
        rfl
      | none => rfl
    | undef => rfl
    | null => rfl
    | bfalse => rfl
    | btrue => rfl
    | long w => rfl
    | double d => rfl
    | str s => rfl
    | arr ar => rfl
    | res r => rfl
  | double d =>
    cases b with
    | obj ob =>
      obtain ⟨rb, pb⟩ := ob
      cases pb with
      | some y =>
        show negateOnSuccess (compareWrapped C y (Zval.double d))
          = (Status.failure, Zval.long 0)
        rw [compareWrapped_none C y _ hno]
        rfl
      | none => rfl
    | undef => rfl
    | null => rfl
    | bfalse => rfl
    | btrue => rfl
    | long w => rfl
    | double e => rfl
    | str s => rfl
    | arr ar => rfl
    | res r => rfl
  | str s =>
    cases b with
    | obj ob =>
      obtain ⟨rb, pb⟩ := ob
      cases pb with
      | some y =>
        show negateOnSuccess (compareWrapped C y (Zval.str s))
          = (Status.failure, Zval.long 0)
        rw [compareWrapped_none C y _ hno]
        rfl
      | none => rfl
    | undef => rfl
    | null => rfl
    | bfalse => rfl
    | btrue => rfl
    | long w => rfl
    | double e => rfl
    | str t => rfl
    | arr ar => rfl
    | res r => rfl
  | arr ar =>
    cases b with
    | obj ob =>
      obtain ⟨rb, pb⟩ := ob
      cases pb with
      | some y =>
        show negateOnSuccess (compareWrapped C y (Zval.arr ar))
          = (Status.failure, Zval.long 0)
        rw [compareWrapped_none C y _ hno]
        rfl
      | none => rfl
    | undef => rfl
    | null => rfl
    | bfalse => rfl
    | btrue => rfl
    | long w => rfl
    | double e => rfl
    | str t => rfl
    | arr br => rfl
    | res r => rfl
  | res r =>
    cases b with
    | obj ob =>
      obtain ⟨rb, pb⟩ := ob
      cases pb with
      | some y =>
        show negateOnSuccess (compareWrapped C y (Zval.res r))
          = (Status.failure, Zval.long 0)
        rw [compareWrapped_none C y _ hno]
        rfl
      | none => rfl
    | undef => rfl
    | null => rfl
    | bfalse => rfl
    | btrue => rfl
    | long w => rfl
    | double e => rfl
    | str t => rfl
    | arr br => rfl
    | res q => rfl

/-- Witness for C6: the all-capabilities-absent class over Unit, a wrapped
left operand and a null right operand: FAILURE with neutral long 0. -/
theorem c6_failure_neutral_witness :
    (isWrappedT zu0 = true ∨ isWrappedT (Zval.null : Zval Unit) = true) ∧
    compareObject allNoneClass zu0 Zval.null = (Status.failure, Zval.long 0) := by
  refine ⟨Or.inl rfl, c6_failure_neutral allNoneClass zu0 Zval.null (Or.inl rfl) ?_⟩
  exact ⟨rfl, rfl, rfl, rfl, rfl, rfl, rfl, rfl, rfl, rfl⟩

/-- C7: for a native type T that is not default-constructible
(dc = false) the create hook installed at registration is
createThrownObject, which raises a host-visible error whose message starts
with the class's registered name ("%s may not be directly instantiated"
formatted with ce->name) and still returns the valid header-only standard
object zend_objects_new(ce) for the requested class, keeping the runtime's
object bookkeeping consistent; for a default-constructible T (dc = true) the
ordinary createObject hook is installed instead. -/
theorem c7_create_error_placeholder (ce : ClassEntry) (sizeofT : Int) (cc : Bool) :
    (createThrownObject ce).message
      = ce.name ++ " may not be directly instantiated" ∧
    (createThrownObject ce).placeholder = { ce := ce } ∧
    (initClassEntry sizeofT false cc).createHook = CreateHookKind.thrown ∧
    (initClassEntry sizeofT true cc).createHook = CreateHookKind.ordinary :=
  ⟨rfl, rfl, rfl, rfl⟩

/-- C8: for a copy-constructible T (copy is its copy constructor) and any
existing wrapped block, cloneObject allocates a fresh block whose size is
computed from the source object's concrete class entry (old.ce — not
necessarily T's statically registered class), copy-constructs the native
payload from the source payload, initialises the header with that same
concrete class, installs T's handlers on the new header, and returns the new
header address, sizeof(T) past the fresh payload. -/
theorem c8_clone_concrete_class {T : Type} (sizeofT : Int) (handlersId : Nat)
    (copy : T → T) (old : AllocatedObject T) (freshBase : Int) :
    (cloneObject sizeofT handlersId copy old freshBase).1.size
      = sizeofT + sizeofZendObject + old.ce.propertiesSize ∧
    (cloneObject sizeofT handlersId copy old freshBase).1.payload
      = copy old.payload ∧
    (cloneObject sizeofT handlersId copy old freshBase).1.ce = old.ce ∧
    (cloneObject sizeofT handlersId copy old freshBase).1.handlersId
      = handlersId ∧
    (cloneObject sizeofT handlersId copy old freshBase).1.base = freshBase ∧
    (cloneObject sizeofT handlersId copy old freshBase).2
      = toZendObject sizeofT freshBase :=
  ⟨rfl, rfl, rfl, rfl, rfl, rfl⟩

/-- C9: the Simple counter scenario.  x is freshly constructed and
takeANumber'd twice (counter 2), y once (counter 1).  The comparison hook on
(x, y) returns SUCCESS with the positive result 1, on (y, x) SUCCESS with the
negative result -1, and casting x to the integer kind yields exactly
toLong() = 2 with SUCCESS. -/
theorem c9_simple_scenario :
    compareObject Simple.nativeClass
      (Zval.obj { ref := { id := 0 }, payload := some simpleX })
      (Zval.obj { ref := { id := 1 }, payload := some simpleY })
      = (Status.success, Zval.long 1) ∧
    (0 : Int) < 1 ∧
    compareObject Simple.nativeClass
      (Zval.obj { ref := { id := 1 }, payload := some simpleY })
      (Zval.obj { ref := { id := 0 }, payload := some simpleX })
      = (Status.success, Zval.long (-1)) ∧
    (-1 : Int) < 0 ∧
    castObject Simple.nativeClass
      (Zval.obj { ref := { id := 0 }, payload := some simpleX }) simpleX IS_LONG
      = (Status.success, some (Zval.long 2)) := by
  decide

end p3
